import Mathlib

/-
Verification of the connection core of lssh (package ssh, file connect.go,
plus the command runner in the run/cmd file).

The Go code is shallowly embedded:
  * Go maps (conf.Config.Server / conf.Config.Proxy) become association
    lists with a lookup that returns an Option; indexing a missing key in Go
    yields the zero value, which we model with ServerConfig.zero.
  * The unbounded for-loop of GetProxyList becomes a fuel-indexed recursion:
    a result of none means the loop has not finished within the given fuel
    (the Go loop has no other exit, so none for all fuel models divergence).
  * External effects (ssh.Dial, createClientViaProxy, SendRequest,
    terminal.MakeRaw, session.Shell, ...) are supplied as environment
    records whose fields give each call's outcome; clients, dialers and
    sessions are abstract Nat handles.
-/

/-- Mirror of conf.ServerConfig, restricted to the fields read by
connect.go: address, port, user, proxy reference, proxy type and
proxy command. -/
structure ServerConfig where
  Addr : String
  Port : String
  User : String
  Proxy : String
  ProxyType : String
  ProxyCommand : String
deriving DecidableEq

/-- Go zero value of conf.ServerConfig: every string field empty.
Indexing a Go map at a missing key yields this value. -/
def ServerConfig.zero : ServerConfig :=
  ⟨"", "", "", "", "", ""⟩

/-- Mirror of conf.ProxyConfig (only membership in the proxy map matters
to connect.go's resolver). -/
structure ProxyConfig where
  Addr : String
  Port : String
deriving DecidableEq

/-- Mirror of conf.Config: the server map and the proxy map, as
association lists. -/
structure Config where
  Server : List (String × ServerConfig)
  Proxy : List (String × ProxyConfig)
deriving DecidableEq

/-- Association-list lookup modelling Go map indexing: first binding wins,
so consing a pair to the front models an overwriting map update. -/
def lookupStr {β : Type} : String → List (String × β) → Option β
  | _, [] => none
  | k, (k2, v) :: rest => if k = k2 then some v else lookupStr k rest

/-- The switch in GetProxyList that classifies a hop: a declared proxy type
of http, https or socks5 is kept, anything else becomes ssh. -/
def classifyProxyType (t : String) : String :=
  if t = "http" ∨ t = "https" ∨ t = "socks5" then t else "ssh"

/-- Outcome of one iteration of GetProxyList's for-loop: either the loop
finishes with a result, or it continues with a new state. -/
inductive StepResult where
  | done : Except String (List String × List (String × String)) → StepResult
  | next : String → String → List String → List (String × String) → StepResult

/-- One iteration of the for-loop body of GetProxyList (connect.go
lines 407-449).  The switch on targetType either consults the proxy map
(http/https/socks5, resetting preProxy and preProxyType to empty) or the
server map (default, taking the zero value on a missing key).  Then:
an empty preProxy breaks out of the loop; a failed lookup returns the
"Not Found proxy" error; otherwise the hop is appended, its type recorded,
and the walk moves to the referenced name. -/
def getProxyListStep (config : Config) (targetServer targetType : String)
    (proxyList : List String) (proxyTypeMap : List (String × String)) :
    StepResult :=
  let r :=
    if targetType = "http" ∨ targetType = "https" ∨ targetType = "socks5" then
      ((lookupStr targetServer config.Proxy).isSome, "", "")
    else
      let preProxyConf := (lookupStr targetServer config.Server).getD ServerConfig.zero
      ((lookupStr targetServer config.Server).isSome,
        preProxyConf.Proxy, preProxyConf.ProxyType)
  match r with
  | (isOk, preProxy, preProxyType) =>
    if preProxy = "" then
      StepResult.done (Except.ok (proxyList, proxyTypeMap))
    else if isOk = false then
      StepResult.done (Except.error (String.append "Not Found proxy : " targetServer))
    else
      let ptype := classifyProxyType preProxyType
      StepResult.next preProxy ptype (proxyList ++ [preProxy])
        ((preProxy, ptype) :: proxyTypeMap)

/-- The for-loop of GetProxyList, with explicit fuel: none means the loop
did not terminate within fuel iterations.  The Go loop has no iteration
bound, so divergence is exactly the case where every fuel yields none. -/
def getProxyListLoop (config : Config) :
    Nat → String → String → List String → List (String × String) →
    Option (Except String (List String × List (String × String)))
  | 0, _, _, _, _ => none
  | Nat.succ fuel, targetServer, targetType, proxyList, proxyTypeMap =>
    match getProxyListStep config targetServer targetType proxyList proxyTypeMap with
    | StepResult.done res => some res
    | StepResult.next s t pl pt => getProxyListLoop config fuel s t pl pt

/-- GetProxyList (connect.go lines 400-457): walks backward from the
target, then reverses the collected hop list so it reads dial-first to
target-adjacent-last.  The map from hop name to hop kind is returned
alongside. -/
def GetProxyList (server : String) (config : Config) (fuel : Nat) :
    Option (Except String (List String × List (String × String))) :=
  match getProxyListLoop config fuel server "" [] [] with
  | none => none
  | some (Except.error e) => some (Except.error e)
  | some (Except.ok res) => some (Except.ok (res.1.reverse, res.2))

/-- Names reachable from the target by the resolver's backward walk through
ssh-kind hops: the target itself, and, from a reachable server entry whose
proxy reference is nonempty and classifies as ssh, the referenced name.
Only such steps keep the walk inside the server map, so this is exactly
the set of states the default branch of the loop can visit. -/
inductive ReachSSH (config : Config) (target : String) : String → Prop
  | base : ReachSSH config target target
  | step : ∀ n sc, ReachSSH config target n →
      lookupStr n config.Server = some sc →
      sc.Proxy ≠ "" →
      classifyProxyType sc.ProxyType = "ssh" →
      ReachSSH config target sc.Proxy

/-- Result of a single SendRequest on a client or session: success, or an
error carrying its message string. -/
inductive SendResult where
  | success : SendResult
  | failure : String → SendResult
deriving DecidableEq

/-- CheckClientAlive (connect.go lines 78-84): sends the keepalive request
and treats a nil error, or an error whose message is "request failed", as
liveness; any other error is returned. -/
def CheckClientAlive (r : SendResult) : Option String :=
  match r with
  | SendResult.success => none
  | SendResult.failure msg =>
    if msg = "request failed" then none else some msg

/-- Environment of one CreateSession call: the outcome of the n-th
CreateClient call made during it (none = success), the outcome of the
keepalive SendRequest used by the liveness probe, and the outcome of
Client.NewSession (an abstract session handle on success). -/
structure CSEnv where
  createClient : Nat → Option String
  probe : SendResult
  newSession : Except String Nat

/-- Tail of CreateSession after the client exists (connect.go lines
96-112): probe the client with CheckClientAlive; on failure call
CreateClient once more (the call whose index is idx), returning its error
if it fails; then request a new session.  The second component counts the
CreateClient calls made because the probe failed. -/
def createSessionAfterClient (env : CSEnv) (idx : Nat) :
    Except String Nat × Nat :=
  match CheckClientAlive env.probe with
  | none => (env.newSession, 0)
  | some _ =>
    match env.createClient idx with
    | some e => (Except.error e, 1)
    | none => (env.newSession, 1)

/-- CreateSession (connect.go lines 87-113): if the stored client is nil,
call CreateClient (call index 0), returning its error on failure;
otherwise, and after a successful initial creation, run the probe-and-
rebuild tail.  The second component counts CreateClient calls triggered by
a failed liveness probe. -/
def CreateSession (clientNil : Bool) (env : CSEnv) :
    Except String Nat × Nat :=
  if clientNil then
    match env.createClient 0 with
    | some e => (Except.error e, 0)
    | none => createSessionAfterClient env 1
  else
    createSessionAfterClient env 0

/-- Environment of createClientOverProxy: outcomes of the external calls,
keyed by the server or proxy name they are made for.  Clients and dialers
are abstract Nat handles; the pair results mirror Go's (value, err)
multiple returns. -/
structure DialEnv where
  dialerHttp : String → Option Nat × Option String
  dialerSocks5 : String → Option Nat × Option String
  clientConfig : String → Except String Nat
  viaProxy : String → Option Nat → Option Nat → Option Nat × Option String

/-- The for-loop of createClientOverProxy (connect.go lines 171-194),
carrying the proxyClient and proxyDialer variables.  For http/https and
socks5 hops the dialer result is assigned and its error checked by the
post-switch check.  In the default (ssh) branch, createClientConfig's
error is returned from inside the case, but the error of
createClientViaProxy is assigned to a case-local err introduced by the
short declaration of proxySshConf, which shadows the outer err: the
post-switch check reads the outer err, still nil, so that error is
discarded and only the (possibly nil) client value escapes the case. -/
def createClientOverProxyLoop (env : DialEnv) (proxyTypeMap : List (String × String)) :
    List String → Option Nat → Option Nat → Except String (Option Nat × Option Nat)
  | [], proxyClient, proxyDialer => Except.ok (proxyClient, proxyDialer)
  | p :: rest, proxyClient, proxyDialer =>
    let t := (lookupStr p proxyTypeMap).getD ""
    if t = "http" ∨ t = "https" then
      match env.dialerHttp p with
      | (d, some e) =>
        let _ := d
        Except.error e
      | (d, none) => createClientOverProxyLoop env proxyTypeMap rest proxyClient d
    else if t = "socks5" then
      match env.dialerSocks5 p with
      | (d, some e) =>
        let _ := d
        Except.error e
      | (d, none) => createClientOverProxyLoop env proxyTypeMap rest proxyClient d
    else
      match env.clientConfig p with
      | Except.error e => Except.error e
      | Except.ok _ =>
        match env.viaProxy p proxyClient proxyDialer with
        | (pc, _errShadowed) =>
          createClientOverProxyLoop env proxyTypeMap rest pc proxyDialer

/-- createClientOverProxy (connect.go lines 160-205) given an
already-resolved proxy list and type map: run the hop loop, then build the
target's client through the last hop's client and dialer, returning its
error if that final call fails. -/
def createClientOverProxy (env : DialEnv) (server : String)
    (proxyList : List String) (proxyTypeMap : List (String × String)) :
    Except String (Option Nat) :=
  match createClientOverProxyLoop env proxyTypeMap proxyList none none with
  | Except.error e => Except.error e
  | Except.ok (proxyClient, proxyDialer) =>
    match env.viaProxy server proxyClient proxyDialer with
    | (_, some e) => Except.error e
    | (client, none) => Except.ok client

/-- Environment of one cmdRun task (run/cmd file, cmdRun): the outcome of
CreateSession, the length of the piped stdin data, the parallel flag and
the number of selected servers. -/
structure CmdRunEnv where
  createSession : Except String Nat
  stdinDataLen : Nat
  isParallel : Bool
  serverListLen : Nat

/-- Observable actions of one cmdRun task: how many writers it sent on the
shared inputWriter channel, and whether it closed its output channel. -/
structure CmdRunTrace where
  publishes : Nat
  outputChanClosed : Bool
deriving DecidableEq

/-- cmdRun (run/cmd file): on CreateSession failure, print the error,
close the output channel and return — publishing nothing.  On success,
piped stdin is wired directly; otherwise, when parallel mode is on or
there is exactly one server, the session's stdin pipe is sent once on
inputWriter.  The output channel is closed when the command finishes. -/
def cmdRun (env : CmdRunEnv) : CmdRunTrace :=
  match env.createSession with
  | Except.error _ => ⟨0, true⟩
  | Except.ok _ =>
    if 0 < env.stdinDataLen then ⟨0, true⟩
    else if env.isParallel = true ∨ env.serverListLen = 1 then ⟨1, true⟩
    else ⟨0, true⟩

/-- Terminal-affecting action of ConTerm: restoring the terminal to a
previously recorded raw-mode state (the Nat is the recorded state). -/
inductive TermAction where
  | restore : Nat → TermAction
deriving DecidableEq

/-- Environment of one ConTerm call: outcomes of terminal.MakeRaw (the Nat
is the recorded prior state), terminal.GetSize, session.RequestPty, the
shell start (session.Shell, or runLocalRcShell's session.Start when
IsLocalRc is set) and session.Wait. -/
structure TermEnv where
  makeRaw : Except String Nat
  getSize : Except String (Nat × Nat)
  requestPty : Option String
  isLocalRc : Bool
  localRcStart : Option String
  shellStart : Option String
  waitShell : Option String

/-- ConTerm (connect.go lines 304-370) as a trace of returns: the first
component is the returned error, the second the terminal actions performed
by the time ConTerm returns.  terminal.Restore is registered by defer
immediately after a successful MakeRaw, so it appears on every return path
after that point; when MakeRaw itself fails no restore is registered.
The resize goroutine and the keepalive goroutine touch no terminal
state and are omitted. -/
def ConTerm (env : TermEnv) : Option String × List TermAction :=
  match env.makeRaw with
  | Except.error e => (some e, [])
  | Except.ok state =>
    match env.getSize with
    | Except.error e => (some e, [TermAction.restore state])
    | Except.ok _ =>
      match env.requestPty with
      | some e => (some e, [TermAction.restore state])
      | none =>
        match (if env.isLocalRc then env.localRcStart else env.shellStart) with
        | some e => (some e, [TermAction.restore state])
        | none =>
          match env.waitShell with
          | some e => (some e, [TermAction.restore state])
          | none => (none, [TermAction.restore state])

/-- bytes.Buffer.ReadBytes with delimiter 10 (the line feed), on a buffer
of bytes: returns the chunk read (up to and including the delimiter, or
the whole buffer when no delimiter occurs), the remaining buffer, and
whether the delimiter was found (false models the io.EOF error). -/
def readBytes : List Nat → List Nat × List Nat × Bool
  | [] => ([], [], false)
  | b :: rest =>
    if b = 10 then ([b], rest, true)
    else
      match readBytes rest with
      | (line, remain, found) => (b :: line, remain, found)

/-- The drain of the GetOutputLoop in RunCmdWithOutput (connect.go lines
275-288) applied to the buffer content observed at one poll: while the
buffer is nonempty, ReadBytes a chunk and emit it, the error being
ignored, so an unterminated final chunk is emitted too.  Fuel-indexed;
each iteration consumes at least one byte, so buffer length is enough
fuel. -/
def getOutputLoop : Nat → List Nat → List (List Nat)
  | 0, _ => []
  | Nat.succ fuel, buf =>
    if buf.isEmpty then []
    else
      match readBytes buf with
      | (line, remain, _) => line :: getOutputLoop fuel remain

/-- Chunks emitted by draining one observed buffer content to exhaustion
in the main loop of RunCmdWithOutput. -/
def drainBuffer (buf : List Nat) : List (List Nat) :=
  getOutputLoop buf.length buf

/-- The last check of RunCmdWithOutput (connect.go lines 291-300): read
chunks from the remaining buffer, emitting a chunk only when ReadBytes
found the delimiter (err != io.EOF), and break on the first chunk without
it — so a trailing chunk with no line feed is read but not emitted. -/
def lastCheck : Nat → List Nat → List (List Nat)
  | 0, _ => []
  | Nat.succ fuel, buf =>
    match readBytes buf with
    | (line, remain, found) =>
      if found then line :: lastCheck fuel remain else []

/-- RunCmdWithOutput (connect.go lines 263-301) as a function of the
schedule: polls lists the buffer contents the main loop observes as the
command writes (each drained to exhaustion before the next poll), and
late is the buffer content that arrives only after the loop last saw the
buffer empty and the command exited, handled by the last check.  The
command's combined output is polls.join ++ late; the returned list is the
chunks sent on outputChan, in order. -/
def RunCmdWithOutput (polls : List (List Nat)) (late : List Nat) :
    List (List Nat) :=
  (polls.map drainBuffer).flatten ++ lastCheck late.length late

/-- Configuration for the chained-proxy scenario: target T's proxy
reference is the plain server A (empty proxy type, so classified ssh), A's
own proxy reference is B declared with proxy type socks5, and B is a proxy
entry. -/
def chainConfig : Config :=
  ⟨[("T", ⟨"t.example", "22", "u", "A", "", ""⟩),
    ("A", ⟨"a.example", "22", "u", "B", "socks5", ""⟩)],
   [("B", ⟨"b.example", "1080"⟩)]⟩

/-- Configuration whose walk reaches a dangling name: target's proxy
reference is A, and A exists in neither the server map nor the proxy
map. -/
def danglingConfig : Config :=
  ⟨[("target", ⟨"t.example", "22", "u", "A", "", ""⟩)], []⟩

/-- Configuration with a proxy-reference cycle between the server entries
A and B: A's proxy is B and B's proxy is A, both of ssh kind. -/
def cycleConfig : Config :=
  ⟨[("A", ⟨"a.example", "22", "u", "B", "", ""⟩),
    ("B", ⟨"b.example", "22", "u", "A", "", ""⟩)],
   []⟩

/-- Small acyclic configuration: server S's proxy reference is P, which is
in neither map, so the walk stops after one hop. -/
def acyclicConfig : Config :=
  ⟨[("S", ⟨"s.example", "22", "u", "P", "", ""⟩)], []⟩

/-- Rank function witnessing that acyclicConfig's proxy-reference graph is
acyclic: the reference S to P strictly decreases it. -/
def acyclicRank (n : String) : Nat :=
  if n = "S" then 1 else 0

/-- One-hop configuration through an http proxy entry: target T declares
proxy P with proxy type http, and P is a proxy entry. -/
def httpHopConfig : Config :=
  ⟨[("T", ⟨"t.example", "22", "u", "P", "http", ""⟩)],
   [("P", ⟨"p.example", "8080"⟩)]⟩

/-- Dial environment in which the handshake for the intermediate ssh hop P
fails while every other step succeeds; the final handshake for the target
returns client handle 7. -/
def hopFailEnv : DialEnv :=
  ⟨fun _ => (none, none),
   fun _ => (none, none),
   fun _ => Except.ok 0,
   fun s _ _ =>
     if s = "P" then (none, some "hop handshake failed") else (some 7, none)⟩

/-- CreateSession environment in which the liveness probe fails with
"connection lost" and every CreateClient call fails with "rebuild dial
failed". -/
def rebuildFailEnv : CSEnv :=
  ⟨fun _ => some "rebuild dial failed",
   SendResult.failure "connection lost",
   Except.ok 3⟩

/-- CreateSession environment in which the probe fails and the rebuild
succeeds, yielding session handle 4. -/
def rebuildOkEnv : CSEnv :=
  ⟨fun _ => none,
   SendResult.failure "connection lost",
   Except.ok 4⟩

/-- cmdRun environment of a host whose session creation fails while input
broadcasting is active (no piped stdin, parallel mode, two servers). -/
def sessionFailRunEnv : CmdRunEnv :=
  ⟨Except.error "cannot connect session", 0, true, 2⟩

/-- cmdRun environment of a host whose session creation succeeds while
input broadcasting is active. -/
def sessionOkRunEnv : CmdRunEnv :=
  ⟨Except.ok 1, 0, true, 2⟩

/-- Terminal environment in which MakeRaw succeeds recording state 5 and
the pty request fails. -/
def ptyFailTermEnv : TermEnv :=
  ⟨Except.ok 5, Except.ok (80, 24), some "pty request failed",
   false, none, none, none⟩

theorem classifyProxyType_cases (t : String) :
    (classifyProxyType t = t ∧
      (t = "http" ∨ t = "https" ∨ t = "socks5")) ∨
    classifyProxyType t = "ssh" := by
  by_cases h : t = "http" ∨ t = "https" ∨ t = "socks5"
  · exact Or.inl ⟨if_pos h, h⟩
  · exact Or.inr (if_neg h)

theorem classifyProxyType_kind (t : String) :
    classifyProxyType t = "ssh" ∨ classifyProxyType t = "http" ∨
    classifyProxyType t = "https" ∨ classifyProxyType t = "socks5" := by
  rcases classifyProxyType_cases t with ⟨he, h | h | h⟩ | he
  · exact Or.inr (Or.inl (he.trans h))
  · exact Or.inr (Or.inr (Or.inl (he.trans h)))
  · exact Or.inr (Or.inr (Or.inr (he.trans h)))
  · exact Or.inl he

theorem classifyProxyType_not_tunnel (t : String)
    (h : ¬(classifyProxyType t = "http" ∨ classifyProxyType t = "https" ∨
      classifyProxyType t = "socks5")) :
    classifyProxyType t = "ssh" := by
  rcases classifyProxyType_cases t with ⟨he, ht⟩ | he
  · rcases ht with h1 | h1 | h1
    · exact absurd (Or.inl (he.trans h1)) h
    · exact absurd (Or.inr (Or.inl (he.trans h1))) h
    · exact absurd (Or.inr (Or.inr (he.trans h1))) h
  · exact he

theorem getProxyListStep_tunnel (config : Config) (s t : String)
    (a : List String) (m : List (String × String))
    (ht : t = "http" ∨ t = "https" ∨ t = "socks5") :
    getProxyListStep config s t a m = StepResult.done (Except.ok (a, m)) := by
  simp only [getProxyListStep]
  rw [if_pos ht]
  rfl

theorem getProxyListStep_noServer (config : Config) (s t : String)
    (a : List String) (m : List (String × String))
    (ht : ¬(t = "http" ∨ t = "https" ∨ t = "socks5"))
    (hl : lookupStr s config.Server = none) :
    getProxyListStep config s t a m = StepResult.done (Except.ok (a, m)) := by
  simp only [getProxyListStep]
  rw [if_neg ht, hl]
  rfl

theorem getProxyListStep_emptyProxy (config : Config) (s t : String)
    (a : List String) (m : List (String × String)) (sc : ServerConfig)
    (ht : ¬(t = "http" ∨ t = "https" ∨ t = "socks5"))
    (hl : lookupStr s config.Server = some sc)
    (hp : sc.Proxy = "") :
    getProxyListStep config s t a m = StepResult.done (Except.ok (a, m)) := by
  simp only [getProxyListStep]
  rw [if_neg ht, hl]
  simp [hp]

theorem getProxyListStep_cont (config : Config) (s t : String)
    (a : List String) (m : List (String × String)) (sc : ServerConfig)
    (ht : ¬(t = "http" ∨ t = "https" ∨ t = "socks5"))
    (hl : lookupStr s config.Server = some sc)
    (hp : sc.Proxy ≠ "") :
    getProxyListStep config s t a m =
      StepResult.next sc.Proxy (classifyProxyType sc.ProxyType)
        (a ++ [sc.Proxy])
        ((sc.Proxy, classifyProxyType sc.ProxyType) :: m) := by
  simp only [getProxyListStep]
  rw [if_neg ht, hl]
  simp [hp]

theorem getProxyListStep_ne_error (config : Config) (s t : String)
    (a : List String) (m : List (String × String)) (e : String) :
    getProxyListStep config s t a m ≠ StepResult.done (Except.error e) := by
  by_cases ht : t = "http" ∨ t = "https" ∨ t = "socks5"
  · rw [getProxyListStep_tunnel config s t a m ht]
    intro h
    cases h
  · cases hl : lookupStr s config.Server with
    | none =>
      rw [getProxyListStep_noServer config s t a m ht hl]
      intro h
      cases h
    | some sc =>
      by_cases hp : sc.Proxy = ""
      · rw [getProxyListStep_emptyProxy config s t a m sc ht hl hp]
        intro h
        cases h
      · rw [getProxyListStep_cont config s t a m sc ht hl hp]
        intro h
        cases h

theorem getProxyListLoop_never_error (config : Config) :
    ∀ (fuel : Nat) (s t : String) (a : List String)
      (m : List (String × String)) (e : String),
      getProxyListLoop config fuel s t a m ≠ some (Except.error e) := by
  intro fuel
  induction fuel with
  | zero =>
    intro s t a m e h
    cases h
  | succ n ih =>
    intro s t a m e h
    rw [getProxyListLoop] at h
    cases hstep : getProxyListStep config s t a m with
    | done r =>
      rw [hstep] at h
      cases h
      exact getProxyListStep_ne_error config s t a m e hstep
    | next s2 t2 a2 m2 =>
      rw [hstep] at h
      exact ih s2 t2 a2 m2 e h

/-- C9: CheckClientAlive reports the connection live (returns nil) exactly
when the keepalive round-trip returns no error or an error whose message
is "request failed"; any other error is returned, marking the connection
stale. -/
theorem checkClientAlive_liveness :
    ∀ r : SendResult,
      (CheckClientAlive r = none ↔
        r = SendResult.success ∨ r = SendResult.failure "request failed") ∧
      (∀ msg, r = SendResult.failure msg → msg ≠ "request failed" →
        CheckClientAlive r = some msg) := by
  intro r
  constructor
  · cases r with
    | success => simp [CheckClientAlive]
    | failure msg =>
      by_cases h : msg = "request failed" <;> simp [CheckClientAlive, h]
  · intro msg hr hm
    subst hr
    simp [CheckClientAlive, hm]

theorem checkClientAlive_liveness_witness :
    CheckClientAlive (SendResult.failure "broken pipe") = some "broken pipe" :=
  (checkClientAlive_liveness (SendResult.failure "broken pipe")).2
    "broken pipe" rfl (by decide)

/-- C8: whenever ConTerm successfully puts the terminal into raw mode,
the recorded prior state is restored (exactly once) before ConTerm
returns, on every exit path: size-query failure, pty-request failure,
shell-start or local-rc shell-start failure, wait failure, and success. -/
theorem conTerm_restores_terminal :
    ∀ (env : TermEnv) (st : Nat), env.makeRaw = Except.ok st →
      (ConTerm env).2 = [TermAction.restore st] := by
  intro env st h
  simp only [ConTerm, h]
  cases hg : env.getSize with
  | error e => rfl
  | ok sz =>
    cases hp : env.requestPty with
    | some e => rfl
    | none =>
      cases hs : (if env.isLocalRc then env.localRcStart else env.shellStart) with
      | some e => rfl
      | none =>
        cases hw : env.waitShell with
        | some e => rfl
        | none => rfl

theorem conTerm_restores_terminal_witness :
    (ConTerm ptyFailTermEnv).2 = [TermAction.restore 5] :=
  conTerm_restores_terminal ptyFailTermEnv 5 rfl

/-- C5: in every CreateSession call, at most one CreateClient call is made
because the liveness probe failed; and when the probe fails (on a client
that did not itself fail to be created) and the rebuild fails too, the
rebuild error is returned and no session is produced. -/
theorem createSession_rebuild_once :
    ∀ (clientNil : Bool) (env : CSEnv) (e : String),
      (CreateSession clientNil env).2 ≤ 1 ∧
      ((clientNil = true → env.createClient 0 = none) →
        CheckClientAlive env.probe ≠ none →
        env.createClient (if clientNil then 1 else 0) = some e →
        (CreateSession clientNil env).1 = Except.error e ∧
        ∀ s, (CreateSession clientNil env).1 ≠ Except.ok s) := by
  intro clientNil env e
  constructor
  · cases clientNil with
    | false =>
      rcases hpr : CheckClientAlive env.probe with _ | msg <;>
        rcases hc : env.createClient 0 with _ | e2 <;>
          simp [CreateSession, createSessionAfterClient, hpr, hc]
    | true =>
      rcases h0 : env.createClient 0 with _ | e0 <;>
        rcases hpr : CheckClientAlive env.probe with _ | msg <;>
          rcases hc : env.createClient 1 with _ | e2 <;>
            simp [CreateSession, createSessionAfterClient, h0, hpr, hc]
  · intro hok hprobe hcc
    cases clientNil with
    | false =>
      rcases hpr : CheckClientAlive env.probe with _ | msg
      · exact absurd hpr hprobe
      · have hcc0 : env.createClient 0 = some e := by simpa using hcc
        constructor
        · simp [CreateSession, createSessionAfterClient, hpr, hcc0]
        · intro s
          simp [CreateSession, createSessionAfterClient, hpr, hcc0]
    | true =>
      have h0 : env.createClient 0 = none := hok rfl
      rcases hpr : CheckClientAlive env.probe with _ | msg
      · exact absurd hpr hprobe
      · have hcc1 : env.createClient 1 = some e := by simpa using hcc
        constructor
        · simp [CreateSession, createSessionAfterClient, h0, hpr, hcc1]
        · intro s
          simp [CreateSession, createSessionAfterClient, h0, hpr, hcc1]

theorem createSession_rebuild_once_witness :
    (CreateSession false rebuildFailEnv).2 ≤ 1 ∧
    ((CreateSession false rebuildFailEnv).1 =
        Except.error "rebuild dial failed" ∧
      ∀ s, (CreateSession false rebuildFailEnv).1 ≠ Except.ok s) := by
  have h := createSession_rebuild_once false rebuildFailEnv "rebuild dial failed"
  exact ⟨h.1, h.2 (fun hh => by cases hh) (by decide) rfl⟩

/-- C6 counterexample: with input broadcasting active (no piped stdin,
parallel mode on), a host task whose session creation fails publishes no
writer on the inputWriter channel, not exactly one. -/
theorem cmdRun_failed_session_publishes_nothing :
    sessionFailRunEnv.stdinDataLen = 0 ∧
    sessionFailRunEnv.isParallel = true ∧
    (cmdRun sessionFailRunEnv).publishes = 0 ∧
    (cmdRun sessionFailRunEnv).publishes ≠ 1 := by
  exact ⟨rfl, rfl, rfl, by decide⟩

/-- C6 amended: with input broadcasting active, a host task publishes
exactly one writer when its session creation succeeds and none when it
fails, so the executor's collector receives one handle per successful
host, not per host. -/
theorem cmdRun_publishes_iff_session_ok :
    ∀ env : CmdRunEnv, env.stdinDataLen = 0 →
      (env.isParallel = true ∨ env.serverListLen = 1) →
      (cmdRun env).publishes =
        (match env.createSession with
         | Except.ok _ => 1
         | Except.error _ => 0) := by
  intro env h0 hb
  rcases hc : env.createSession with e | s
  · simp [cmdRun, hc]
  · simp only [cmdRun, hc, h0]
    rw [if_neg (by decide), if_pos hb]

theorem cmdRun_publishes_iff_session_ok_witness :
    (cmdRun sessionOkRunEnv).publishes =
      (match sessionOkRunEnv.createSession with
       | Except.ok _ => 1
       | Except.error _ => 0) :=
  cmdRun_publishes_iff_session_ok sessionOkRunEnv rfl (Or.inl rfl)

/-- C1: in createClientOverProxy, the error of createClientViaProxy for an
intermediate ssh hop is assigned to the case-local err shadowed by the
short declaration of proxySshConf and never reaches the post-switch
check: with the hop handshake for P failing, the loop continues with a
nil hop client and the call returns the target client built over a nil
hop, not the hop's error. -/
theorem createClientOverProxy_swallows_hop_error :
    (hopFailEnv.viaProxy "P" none none).2 = some "hop handshake failed" ∧
    createClientOverProxy hopFailEnv "T" ["P"] [("P", "ssh")] =
      Except.ok (some 7) := by
  exact ⟨rfl, rfl⟩

/-- C3: RunCmdWithOutput preserves chunk order, but when combined output
not ending in a line terminator reaches the buffer only after the main
loop last saw it empty, the final drain reads the unterminated tail with
io.EOF and discards it: for output hi LF hi, only hi LF is emitted, so
the reassembled bytes are a strict prefix of the original output. -/
theorem runCmdWithOutput_drops_unterminated_tail :
    RunCmdWithOutput [[104, 105, 10]] [104, 105] = [[104, 105, 10]] ∧
    (RunCmdWithOutput [[104, 105, 10]] [104, 105]).flatten ≠
      [104, 105, 10] ++ [104, 105] := by
  exact ⟨rfl, by decide⟩

/-- C2 counterexample: for target T whose proxy reference is plain server
A, with A's proxy reference B declared socks5 and listed among the proxy
entries, GetProxyList returns the hop list B then A — not A then B as the
claim states. -/
theorem getProxyList_chain_scenario_not_A_B :
    GetProxyList "T" chainConfig 5 =
      some (Except.ok (["B", "A"], [("B", "socks5"), ("A", "ssh")])) ∧
    (["B", "A"] : List String) ≠ ["A", "B"] := by
  exact ⟨rfl, by decide⟩

/-- C2 amended: in that scenario GetProxyList returns the hop list
[B, A] — dial order, outermost first: the socks5 proxy B, then the ssh
hop A — with the kind map assigning ssh to A and socks5 to B. -/
theorem getProxyList_chain_scenario_dial_order :
    GetProxyList "T" chainConfig 5 =
      some (Except.ok (["B", "A"], [("B", "socks5"), ("A", "ssh")])) ∧
    lookupStr "A" [("B", "socks5"), ("A", "ssh")] = some "ssh" ∧
    lookupStr "B" [("B", "socks5"), ("A", "ssh")] = some "socks5" := by
  exact ⟨rfl, rfl, rfl⟩

/-- C4: when the walk reaches a referenced name in neither the server nor
the proxy map, GetProxyList does not return the "not found" error: it
returns the hops collected so far with no error (the missing name yields
the zero-value server record, whose empty proxy field breaks the loop
before the isOk check, so the error branch is unreachable: no
configuration makes GetProxyList return an error). -/
theorem getProxyList_missing_name_silently_ends_walk :
    GetProxyList "target" danglingConfig 5 =
      some (Except.ok (["A"], [("A", "ssh")])) ∧
    (∀ (server : String) (config : Config) (fuel : Nat) (e : String),
      GetProxyList server config fuel ≠ some (Except.error e)) := by
  constructor
  · rfl
  · intro server config fuel e h
    rw [GetProxyList] at h
    cases hl : getProxyListLoop config fuel server "" [] [] with
    | none =>
      rw [hl] at h
      cases h
    | some r =>
      cases r with
      | error e2 =>
        exact getProxyListLoop_never_error config fuel server "" [] [] e2 hl
      | ok res =>
        rw [hl] at h
        cases h

theorem getProxyList_missing_name_silently_ends_walk_witness :
    GetProxyList "B" (Config.mk [] []) 1 ≠
      some (Except.error "Not Found proxy : B") :=
  getProxyList_missing_name_silently_ends_walk.2 "B" (Config.mk [] []) 1
    "Not Found proxy : B"

theorem getProxyListLoop_succ (config : Config) (fuel : Nat) (s t : String)
    (a : List String) (m : List (String × String)) :
    getProxyListLoop config (fuel + 1) s t a m =
      match getProxyListStep config s t a m with
      | StepResult.done res => some res
      | StepResult.next s2 t2 pl pt => getProxyListLoop config fuel s2 t2 pl pt :=
  rfl

theorem cycleLoop_none :
    ∀ (fuel : Nat) (s t : String) (a : List String)
      (m : List (String × String)),
      (s = "A" ∨ s = "B") →
      ¬(t = "http" ∨ t = "https" ∨ t = "socks5") →
      getProxyListLoop cycleConfig fuel s t a m = none := by
  intro fuel
  induction fuel with
  | zero =>
    intro s t a m hs ht
    rfl
  | succ f ih =>
    intro s t a m hs ht
    rcases hs with hs | hs <;> subst hs
    · have hl : lookupStr "A" cycleConfig.Server =
          some ⟨"a.example", "22", "u", "B", "", ""⟩ := rfl
      rw [getProxyListLoop_succ,
        getProxyListStep_cont cycleConfig "A" t a m _ ht hl (by decide)]
      exact ih "B" (classifyProxyType "") _ _ (Or.inr rfl) (by decide)
    · have hl : lookupStr "B" cycleConfig.Server =
          some ⟨"b.example", "22", "u", "A", "", ""⟩ := rfl
      rw [getProxyListLoop_succ,
        getProxyListStep_cont cycleConfig "B" t a m _ ht hl (by decide)]
      exact ih "A" (classifyProxyType "") _ _ (Or.inl rfl) (by decide)

theorem getProxyListLoop_terminates (config : Config) (target : String)
    (r : String → Nat)
    (hrank : ∀ n sc, ReachSSH config target n →
      lookupStr n config.Server = some sc → sc.Proxy ≠ "" →
      classifyProxyType sc.ProxyType = "ssh" → r sc.Proxy < r n) :
    ∀ (k : Nat) (n t2 : String) (a : List String)
      (m : List (String × String)),
      ReachSSH config target n → r n ≤ k →
      ¬(t2 = "http" ∨ t2 = "https" ∨ t2 = "socks5") →
      getProxyListLoop config (k + 2) n t2 a m ≠ none := by
  intro k
  induction k with
  | zero =>
    intro n t2 a m hreach hr ht
    show getProxyListLoop config (1 + 1) n t2 a m ≠ none
    cases hl : lookupStr n config.Server with
    | none =>
      rw [getProxyListLoop_succ, getProxyListStep_noServer config n t2 a m ht hl]
      intro h
      cases h
    | some sc =>
      by_cases hp : sc.Proxy = ""
      · rw [getProxyListLoop_succ,
          getProxyListStep_emptyProxy config n t2 a m sc ht hl hp]
        intro h
        cases h
      · rw [getProxyListLoop_succ,
          getProxyListStep_cont config n t2 a m sc ht hl hp]
        rcases classifyProxyType_cases sc.ProxyType with ⟨he, htn⟩ | he
        · show getProxyListLoop config (0 + 1)
            sc.Proxy (classifyProxyType sc.ProxyType) _ _ ≠ none
          rw [getProxyListLoop_succ,
            getProxyListStep_tunnel config sc.Proxy
              (classifyProxyType sc.ProxyType) _ _ (by rw [he]; exact htn)]
          intro h
          cases h
        · have hlt := hrank n sc hreach hl hp he
          omega
  | succ k ih =>
    intro n t2 a m hreach hr ht
    show getProxyListLoop config ((k + 2) + 1) n t2 a m ≠ none
    cases hl : lookupStr n config.Server with
    | none =>
      rw [getProxyListLoop_succ, getProxyListStep_noServer config n t2 a m ht hl]
      intro h
      cases h
    | some sc =>
      by_cases hp : sc.Proxy = ""
      · rw [getProxyListLoop_succ,
          getProxyListStep_emptyProxy config n t2 a m sc ht hl hp]
        intro h
        cases h
      · rw [getProxyListLoop_succ,
          getProxyListStep_cont config n t2 a m sc ht hl hp]
        rcases classifyProxyType_cases sc.ProxyType with ⟨he, htn⟩ | he
        · show getProxyListLoop config ((k + 1) + 1)
            sc.Proxy (classifyProxyType sc.ProxyType) _ _ ≠ none
          rw [getProxyListLoop_succ,
            getProxyListStep_tunnel config sc.Proxy
              (classifyProxyType sc.ProxyType) _ _ (by rw [he]; exact htn)]
          intro h
          cases h
        · have hlt := hrank n sc hreach hl hp he
          have hreach2 := ReachSSH.step n sc hreach hl hp he
          have hr2 : r sc.Proxy ≤ k := by omega
          rw [he]
          exact ih sc.Proxy "ssh" _ _ hreach2 hr2 (by decide)

/-- C7: the hop walk of GetProxyList has no cycle detection: whenever the
proxy-reference graph reachable from the target is acyclic (witnessed by a
rank function decreasing along every reachable ssh-kind reference), some
fuel suffices for the walk to finish; and on the configuration whose
server entries A and B reference each other, the walk runs forever (none
for every fuel). -/
theorem getProxyList_no_cycle_detection :
    (∀ (config : Config) (server : String) (r : String → Nat),
      (∀ n sc, ReachSSH config server n →
        lookupStr n config.Server = some sc → sc.Proxy ≠ "" →
        classifyProxyType sc.ProxyType = "ssh" → r sc.Proxy < r n) →
      ∃ fuel, (GetProxyList server config fuel).isSome = true) ∧
    (∀ fuel, GetProxyList "A" cycleConfig fuel = none) := by
  constructor
  · intro config server r hrank
    refine ⟨r server + 2, ?_⟩
    have hloop := getProxyListLoop_terminates config server r hrank
      (r server) server "" [] [] ReachSSH.base (Nat.le_refl _) (by decide)
    rw [GetProxyList]
    cases hl : getProxyListLoop config (r server + 2) server "" [] [] with
    | none => exact absurd hl hloop
    | some res => cases res <;> rfl
  · intro fuel
    rw [GetProxyList, cycleLoop_none fuel "A" "" [] [] (Or.inl rfl) (by decide)]

theorem getProxyList_no_cycle_detection_witness :
    ∃ fuel, (GetProxyList "S" acyclicConfig fuel).isSome = true := by
  apply getProxyList_no_cycle_detection.1 acyclicConfig "S" acyclicRank
  intro n sc hreach hl hp hcl
  by_cases hn : n = "S"
  · subst hn
    simp only [acyclicConfig, lookupStr, if_pos rfl] at hl
    injection hl with h2
    rw [← h2]
    decide
  · exfalso
    simp [acyclicConfig, lookupStr, hn] at hl

theorem getProxyListLoop_kind_inv (config : Config) :
    ∀ (fuel : Nat) (s t : String) (a : List String)
      (m : List (String × String)) (l : List String)
      (mm : List (String × String)),
      getProxyListLoop config fuel s t a m = some (Except.ok (l, mm)) →
      ((∀ n, (lookupStr n m).isSome = true ↔ n ∈ a) ∧
        (∀ n k, lookupStr n m = some k →
          (k = "ssh" ∨ k = "http" ∨ k = "https" ∨ k = "socks5") ∧
          ∃ t2 sc, lookupStr t2 config.Server = some sc ∧
            sc.Proxy = n ∧ k = classifyProxyType sc.ProxyType)) →
      ((∀ n, (lookupStr n mm).isSome = true ↔ n ∈ l) ∧
        (∀ n k, lookupStr n mm = some k →
          (k = "ssh" ∨ k = "http" ∨ k = "https" ∨ k = "socks5") ∧
          ∃ t2 sc, lookupStr t2 config.Server = some sc ∧
            sc.Proxy = n ∧ k = classifyProxyType sc.ProxyType)) := by
  intro fuel
  induction fuel with
  | zero =>
    intro s t a m l mm h hinv
    cases h
  | succ f ih =>
    intro s t a m l mm h hinv
    rw [getProxyListLoop_succ] at h
    by_cases ht : t = "http" ∨ t = "https" ∨ t = "socks5"
    · rw [getProxyListStep_tunnel config s t a m ht] at h
      have h2 : some (Except.ok (a, m)) = some (Except.ok (l, mm)) := h
      simp only [Option.some.injEq, Except.ok.injEq, Prod.mk.injEq] at h2
      rcases h2 with ⟨rfl, rfl⟩
      exact hinv
    · cases hl : lookupStr s config.Server with
      | none =>
        rw [getProxyListStep_noServer config s t a m ht hl] at h
        have h2 : some (Except.ok (a, m)) = some (Except.ok (l, mm)) := h
        simp only [Option.some.injEq, Except.ok.injEq, Prod.mk.injEq] at h2
        rcases h2 with ⟨rfl, rfl⟩
        exact hinv
      | some sc =>
        by_cases hp : sc.Proxy = ""
        · rw [getProxyListStep_emptyProxy config s t a m sc ht hl hp] at h
          have h2 : some (Except.ok (a, m)) = some (Except.ok (l, mm)) := h
          simp only [Option.some.injEq, Except.ok.injEq, Prod.mk.injEq] at h2
          rcases h2 with ⟨rfl, rfl⟩
          exact hinv
        · rw [getProxyListStep_cont config s t a m sc ht hl hp] at h
          have h2 : getProxyListLoop config f sc.Proxy
              (classifyProxyType sc.ProxyType) (a ++ [sc.Proxy])
              ((sc.Proxy, classifyProxyType sc.ProxyType) :: m) =
              some (Except.ok (l, mm)) := h
          apply ih sc.Proxy (classifyProxyType sc.ProxyType)
            (a ++ [sc.Proxy]) ((sc.Proxy, classifyProxyType sc.ProxyType) :: m)
            l mm h2
          constructor
          · intro n
            by_cases hn : n = sc.Proxy
            · subst hn
              simp [lookupStr, List.mem_append]
            · simp only [lookupStr, if_neg hn, List.mem_append,
                List.mem_singleton]
              rw [hinv.1 n]
              simp [hn]
          · intro n k hk
            by_cases hn : n = sc.Proxy
            · subst hn
              simp [lookupStr] at hk
              subst hk
              refine ⟨classifyProxyType_kind sc.ProxyType, s, sc, hl, rfl, rfl⟩
            · simp only [lookupStr, if_neg hn] at hk
              exact hinv.2 n k hk

/-- C10: whenever GetProxyList returns without error, the kind map is
defined on exactly the names of the returned hop list, and every kind it
assigns is one of ssh, http, https, socks5 — each hop's kind being the
declared proxy type of the server entry that references it when that type
is http, https or socks5, and ssh otherwise. -/
theorem getProxyList_kind_map_sound :
    ∀ (server : String) (config : Config) (fuel : Nat)
      (l : List String) (mm : List (String × String)),
      GetProxyList server config fuel = some (Except.ok (l, mm)) →
      (∀ n, (lookupStr n mm).isSome = true ↔ n ∈ l) ∧
      (∀ n k, lookupStr n mm = some k →
        (k = "ssh" ∨ k = "http" ∨ k = "https" ∨ k = "socks5") ∧
        ∃ t2 sc, lookupStr t2 config.Server = some sc ∧
          sc.Proxy = n ∧ k = classifyProxyType sc.ProxyType) := by
  intro server config fuel l mm h
  rw [GetProxyList] at h
  cases hl : getProxyListLoop config fuel server "" [] [] with
  | none =>
    rw [hl] at h
    cases h
  | some res =>
    cases res with
    | error e =>
      rw [hl] at h
      cases h
    | ok res2 =>
      rw [hl] at h
      have h2 : some (Except.ok (res2.1.reverse, res2.2)) =
          some (Except.ok (l, mm)) := h
      simp only [Option.some.injEq, Except.ok.injEq, Prod.mk.injEq] at h2
      rcases h2 with ⟨hrev, hmm⟩
      have hbase : (∀ n, (lookupStr n ([] : List (String × String))).isSome
            = true ↔ n ∈ ([] : List String)) ∧
          (∀ n k, lookupStr n ([] : List (String × String)) = some k →
            (k = "ssh" ∨ k = "http" ∨ k = "https" ∨ k = "socks5") ∧
            ∃ t2 sc, lookupStr t2 config.Server = some sc ∧
              sc.Proxy = n ∧ k = classifyProxyType sc.ProxyType) := by
        constructor
        · intro n
          simp [lookupStr]
        · intro n k hk
          cases hk
      have hres := getProxyListLoop_kind_inv config fuel server "" [] []
        res2.1 res2.2 hl hbase
      subst hrev
      subst hmm
      constructor
      · intro n
        rw [List.mem_reverse]
        exact hres.1 n
      · exact hres.2

theorem getProxyList_kind_map_sound_witness :
    (∀ n, (lookupStr n [("P", "http")]).isSome = true ↔ n ∈ ["P"]) ∧
    (∀ n k, lookupStr n [("P", "http")] = some k →
      (k = "ssh" ∨ k = "http" ∨ k = "https" ∨ k = "socks5") ∧
      ∃ t2 sc, lookupStr t2 httpHopConfig.Server = some sc ∧
        sc.Proxy = n ∧ k = classifyProxyType sc.ProxyType) :=
  getProxyList_kind_map_sound "T" httpHopConfig 3 ["P"] [("P", "http")] rfl
